import Mathlib

/-!
Verification of the scraper MCP server with x402 payment handling.

The development shallowly embeds the logical core of the server
-- payment detection, the payment executor, the domain filter, the
link fetcher, the text extractor and the orchestrator -- as
executable Lean definitions, and proves the specified properties
about them.  JSON values are modelled by the inductive type
Scraper.Val; the external network is modelled by an environment
record giving the body of the n-th call to each endpoint and the
outcome of payment requests.  Transport-level failures of the links
and extract-text fetches propagate as exceptions in the source and
are outside the model; payment-transport failures are modelled,
because the source catches them.
-/

namespace Scraper

/-- A JSON-like runtime value, the shape the server manipulates. -/
inductive Val where
  | vnull
  | vbool (b : Bool)
  | vnum (n : Int)
  | vstr (s : String)
  | varr (elems : List Val)
  | vobj (fields : List (String × Val))

/-- JavaScript truthiness of an optional value; none stands for undefined.
null, false, 0 and the empty string are falsy; arrays and objects,
empty ones included, are truthy. -/
def truthy : Option Val → Bool
  | none => false
  | some .vnull => false
  | some (.vbool b) => b
  | some (.vnum n) => n != 0
  | some (.vstr s) => s != ""
  | some (.varr _) => true
  | some (.vobj _) => true

/-- Optional-chaining property access, v?.key: undefined unless v is an
object with the field. -/
def getField (v : Val) (key : String) : Option Val :=
  match v with
  | .vobj fields => fields.lookup key
  | _ => none

/-- Optional-chaining index access, v?.[i]: undefined unless v is an
array long enough. -/
def getIndex (v : Val) (i : Nat) : Option Val :=
  match v with
  | .varr elems => elems.get? i
  | _ => none

/-- The payment detector: data?.x402Version && data?.accepts, used in
boolean position. -/
def isX402 (data : Val) : Bool :=
  truthy (getField data "x402Version") && truthy (getField data "accepts")

example : isX402 (.vobj [("x402Version", .vnum 1),
    ("accepts", .varr [.vobj [("resource", .vstr "u")]])]) = true := by decide

example : isX402 (.vobj []) = false := by decide

/-- Whether pat occurs as a contiguous run inside l: the semantics of the
JavaScript String.prototype.includes test over character lists. -/
def occursInL (pat : List Char) : List Char → Bool
  | [] => pat.isPrefixOf ([] : List Char)
  | c :: cs => pat.isPrefixOf (c :: cs) || occursInL pat cs

/-- Remove the first occurrence of pat from l, leaving l unchanged when pat
does not occur: the semantics of JavaScript String.prototype.replace with a
string pattern and an empty replacement. -/
def removeFirstL (pat : List Char) : List Char → List Char
  | [] => []
  | c :: cs =>
    if pat.isPrefixOf (c :: cs) then (c :: cs).drop pat.length
    else c :: removeFirstL pat cs

/-- s.includes(sub) on strings. -/
def hasSub (s sub : String) : Bool := occursInL sub.toList s.toList

/-- pre is an initial run of s. -/
def startsWithL (s pre : String) : Bool := pre.toList.isPrefixOf s.toList

/-- Drop the first n characters of s. -/
def dropChars (s : String) (n : Nat) : String := String.mk (s.toList.drop n)

/-- host.replace with pattern www. and empty replacement, as the source
writes in filterUrls and in the scrape_website handler: removes the FIRST
occurrence of the substring www., wherever it is. -/
def stripWww (s : String) : String :=
  String.mk (removeFirstL "www.".toList s.toList)

example : stripWww "www.example.com" = "example.com" := by decide

example : stripWww "awww.example.com" = "aexample.com" := by decide

/-- Characters ending the host portion of an http(s) URL. -/
def isHostDelim (c : Char) : Bool := c == '/' || c == ':' || c == '?' || c == '#'

/-- Model of the hostname the JavaScript URL constructor yields, restricted
to plain http and https URLs with ASCII hosts: none when the constructor
throws (no http or https scheme, or an empty host), otherwise the text
between the scheme and the first delimiter, ASCII-lowercased. -/
def urlHostname (s : String) : Option String :=
  let afterScheme :=
    if startsWithL s "https://" then some (dropChars s 8)
    else if startsWithL s "http://" then some (dropChars s 7)
    else none
  match afterScheme with
  | none => none
  | some r =>
    let host := r.toList.takeWhile (fun c => !isHostDelim c)
    if host.isEmpty then none
    else some (String.mk (host.map Char.toLower))

example : urlHostname "https://sub.example.com/a" = some "sub.example.com" := by decide

example : urlHostname "not a url" = none := by decide

/-- The fixed social-media denylist of filterUrls. -/
def socials : List String :=
  ["github.com", "linkedin.com", "instagram.com", "twitter.com",
   "facebook.com", "youtube.com", "x.com"]

/-- The predicate filterUrls applies to each candidate link: parse the
link (a failed parse excludes it), strip www. from the host, exclude hosts
containing a denylisted name, keep hosts containing the stripped target
domain. -/
def keepUrl (domain link : String) : Bool :=
  match urlHostname link with
  | none => false
  | some hostname =>
    let host := stripWww hostname
    !(socials.any fun s => hasSub host s) && hasSub host (stripWww domain)

/-- Filter links to the target domain, excluding socials. -/
def filterUrls (links : List String) (domain : String) : List String :=
  links.filter (keepUrl domain)

example :
    filterUrls ["https://github.com/x", "https://sub.example.com/a",
      "https://www.example.com/b", "not a url"] "example.com" =
    ["https://sub.example.com/a", "https://www.example.com/b"] := by decide

/-- The external network: the JSON body served by the n-th GET to the
links endpoint, the JSON body served by the n-th POST to the extract-text
endpoint, and the outcome of a payment POST for a given resource value --
some ok gives the res.ok status, none a transport failure the source
catches.  Bodies are indexed by how many calls to that endpoint came
before, so a mock that answers differently on the first and second call is
an Env directly. -/
structure Env where
  linksResp : Nat → Val
  extractResp : Nat → Val
  doPayment : Val → Option Bool

/-- challenge?.accepts?.[0]?.resource. -/
def resourceUrl (x402 : Val) : Option Val :=
  match getField x402 "accepts" with
  | none => none
  | some accepts =>
    match getIndex accepts 0 with
    | none => none
    | some first => getField first "resource"

/-- The payment executor.  Returns the boolean outcome together with the
number of network calls it issued (0 when the resource is absent or falsy,
1 otherwise).  A non-ok status and a transport failure both come back as
false; the function is total, so no failure escapes it. -/
def pay (env : Env) (x402 : Val) : Bool × Nat :=
  match resourceUrl x402 with
  | none => (false, 0)
  | some u =>
    if truthy (some u) then
      match env.doPayment u with
      | some ok => (ok, 1)
      | none => (false, 1)
    else (false, 0)

/-- What one fetch-capable operation did: the value it returned, how many
times it hit its own endpoint, how many times it invoked the payment
executor, and how many network calls the executor issued. -/
structure NetOut where
  result : Val
  fetches : Nat
  payCalls : Nat
  payNet : Nat

/-- The link fetcher.  The source recurses on a boolean retry flag that the
recursive call sets to false; here the flag is the number of retries still
allowed (1 for true, 0 for false), so the recursion is structural.  n
counts the links-endpoint calls already made, so the body read is
env.linksResp n. -/
def getLinksR (env : Env) (url : String) : Nat → Nat → NetOut
  | 0, n =>
    -- retry flag false: the challenge check pays nothing and every branch
    -- of the source returns the parsed body unchanged
    ⟨env.linksResp n, 1, 0, 0⟩
  | r + 1, n =>
    let data := env.linksResp n
    if isX402 data then
      let p := pay env data
      if p.1 then
        let sub := getLinksR env url r (n + 1)
        ⟨sub.result, sub.fetches + 1, sub.payCalls + 1, sub.payNet + p.2⟩
      else ⟨data, 1, 1, p.2⟩
    else ⟨data, 1, 0, 0⟩

/-- getLinks with its boolean retry flag, as the source declares it. -/
def getLinks (env : Env) (url : String) (retry : Bool) (n : Nat) : NetOut :=
  getLinksR env url (cond retry 1 0) n

/-- The text extractor, with the same structural rendering of its retry
flag.  A top-level challenge is paid and the call replayed once when the
payment succeeds; otherwise, when the response carries a results array
holding at least one challenge, every such item is paid and the call is
replayed once whatever the payment outcomes were.  Per the endpoint
contract results is an array; a truthy non-array results value, on which
the source would throw at .filter, is outside the model. -/
def extractTextR (env : Env) (urls : List String) (domain : String) :
    Nat → Nat → NetOut
  | 0, n =>
    -- retry flag false: both challenge checks pay nothing and every branch
    -- of the source returns the parsed body unchanged
    ⟨env.extractResp n, 1, 0, 0⟩
  | r + 1, n =>
    let data := env.extractResp n
    if isX402 data then
      let p := pay env data
      if p.1 then
        let sub := extractTextR env urls domain r (n + 1)
        ⟨sub.result, sub.fetches + 1, sub.payCalls + 1, sub.payNet + p.2⟩
      else ⟨data, 1, 1, p.2⟩
    else
      match getField data "results" with
      | some (.varr results) =>
        let challenges := results.filter isX402
        if challenges.length > 0 then
          let net := (challenges.map (fun c => (pay env c).2)).sum
          let sub := extractTextR env urls domain r (n + 1)
          ⟨sub.result, sub.fetches + 1, sub.payCalls + challenges.length,
            sub.payNet + net⟩
        else ⟨data, 1, 0, 0⟩
      | _ => ⟨data, 1, 0, 0⟩

/-- extractText with its boolean retry flag, as the source declares it. -/
def extractText (env : Env) (urls : List String) (domain : String)
    (retry : Bool) (n : Nat) : NetOut :=
  extractTextR env urls domain (cond retry 1 0) n

/-- An object literal whose fields may be undefined: JSON serialization
drops a property whose value is undefined, so such fields vanish. -/
def mkObj (fields : List (String × Option Val)) : Val :=
  .vobj (fields.filterMap fun f =>
    match f.2 with
    | some v => some (f.1, v)
    | none => none)

/-- A string element of a links array.  Per the links-endpoint contract
the links field is an array of strings; other element shapes are outside
the model. -/
def valAsString : Val → Option String
  | .vstr s => some s
  | _ => none

/-- links.links falling back to the empty array when absent or not an
array, as the orchestrator writes links.links with an or-else. -/
def linksField (links : Val) : List String :=
  match getField links "links" with
  | some (.varr elems) => elems.filterMap valAsString
  | _ => []

/-- What the scrape_website handler produced: the payload serialized into
its text content, and how many network calls each collaborator made. -/
structure ScrapeOut where
  payload : Val
  linkFetches : Nat
  extractFetches : Nat
  payCalls : Nat

/-- The orchestrator behind scrape_website.  none models the uncaught
throw of the URL constructor on a malformed url argument; otherwise the
handler fetches links, answers an error payload when the final link result
is still a challenge, filters the links, answers a no-internal-links
payload when the filter is empty, and otherwise extracts text from the
filtered list. -/
def scrapeWebsite (env : Env) (url : String) : Option ScrapeOut :=
  match urlHostname url with
  | none => none
  | some host =>
    let domain := stripWww host
    let g := getLinks env url true 0
    let links := g.result
    if isX402 links then
      some ⟨.vobj [("error", .vstr "Payment failed for links"), ("x402", links)],
        g.fetches, 0, g.payCalls⟩
    else
      let filtered := filterUrls (linksField links) domain
      if filtered.isEmpty then
        some ⟨mkObj [("links", getField links "links"),
            ("filtered", some (.varr [])),
            ("message", some (.vstr "No internal links found"))],
          g.fetches, 0, g.payCalls⟩
      else
        let e := extractText env filtered domain true 0
        some ⟨.vobj [("links", links),
            ("filtered", .varr (filtered.map .vstr)),
            ("extracted", e.result)],
          g.fetches, e.fetches, g.payCalls + e.payCalls⟩

/-- The text content a tool handler returns: either a literal message or
the JSON serialization of a payload. -/
inductive ToolText where
  | plain (s : String)
  | jsonOf (v : Val)

/-- What the extract_text handler produced, with its network counts. -/
structure ToolOut where
  text : ToolText
  extractFetches : Nat
  payCalls : Nat

/-- The extract_text tool handler: filter the given urls to the domain
first, answer a plain message when nothing is left, and only otherwise
call the text extractor on the filtered list. -/
def extractTextTool (env : Env) (urls : List String) (domain : String) :
    ToolOut :=
  let filtered := filterUrls urls domain
  if filtered.isEmpty then ⟨.plain "No URLs matched domain filter", 0, 0⟩
  else
    let r := extractText env filtered domain true 0
    ⟨.jsonOf r.result, r.fetches, r.payCalls⟩

/-! Concrete fixtures, used by the witness theorems below: a payment
challenge whose first accepted option charges for resource b, a normal
links body, a normal extraction batch, and mock environments built from
them. -/

/-- A well-formed payment challenge for resource b. -/
def challengeB : Val :=
  .vobj [("x402Version", .vnum 1),
    ("accepts", .varr [.vobj [("resource", .vstr "b")]])]

/-- A normal links response body. -/
def linksOk : Val := .vobj [("links", .varr [.vstr "a"])]

/-- A normal extracted-text item for url a. -/
def textItemA : Val := .vobj [("url", .vstr "a"), ("text", .vstr "t")]

/-- The batch the extract-text endpoint serves after payment. -/
def retriedBatch : Val :=
  .vobj [("results",
    .varr [textItemA, .vobj [("url", .vstr "b"), ("text", .vstr "u")]])]

/-- A challenge whose accepted-options list is empty, a shape the data
model rules out but the code can receive. -/
def emptyAccepts : Val :=
  .vobj [("x402Version", .vnum 1), ("accepts", .varr [])]

/-- Links endpoint: challenge first, normal body afterwards; payments
succeed. -/
def envC1 : Env :=
  ⟨fun n => if n = 0 then challengeB else linksOk,
   fun _ => .vnull,
   fun _ => some true⟩

/-- Extract endpoint: a batch holding one text item and one challenge
first, the retried batch afterwards; payments succeed. -/
def envC2 : Env :=
  ⟨fun _ => .vnull,
   fun n => if n = 0 then .vobj [("results", .varr [textItemA, challengeB])]
     else retriedBatch,
   fun _ => some true⟩

/-- Links endpoint always serves a challenge; payments are declined. -/
def envC8 : Env :=
  ⟨fun _ => challengeB, fun _ => .vnull, fun _ => some false⟩

/-- Links endpoint serves the empty-accepts challenge; payments would
succeed if ever requested. -/
def envC9 : Env :=
  ⟨fun _ => emptyAccepts, fun _ => .vnull, fun _ => some true⟩

/-! Helper lemmas. -/

/-- With no retry allowed the link fetcher returns the body of its single
fetch unchanged and invokes no payment. -/
theorem getLinksR_zero (env : Env) (url : String) (n : Nat) :
    getLinksR env url 0 n = ⟨env.linksResp n, 1, 0, 0⟩ := rfl

/-- With no retry allowed the text extractor returns the body of its
single fetch unchanged and invokes no payment. -/
theorem extractTextR_zero (env : Env) (urls : List String) (domain : String)
    (n : Nat) :
    extractTextR env urls domain 0 n = ⟨env.extractResp n, 1, 0, 0⟩ := rfl

/-- Removing a pattern that starts the list drops exactly the pattern. -/
theorem removeFirstL_at_head (pat l : List Char)
    (h : pat.isPrefixOf l = true) :
    removeFirstL pat l = l.drop pat.length := by
  cases l with
  | nil => simp [removeFirstL]
  | cons c cs => simp [removeFirstL, h]

/-- Removing a pattern that does not occur leaves the list unchanged. -/
theorem removeFirstL_of_not_occurs (pat : List Char) :
    ∀ l, occursInL pat l = false → removeFirstL pat l = l := by
  intro l
  induction l with
  | nil => intro _; rfl
  | cons c cs ih =>
    intro h
    simp only [occursInL, Bool.or_eq_false_iff] at h
    simp [removeFirstL, h.1, ih h.2]

/-! Claim theorems. -/

/-- C1: when the link-discovery body is a payment challenge and the retry
flag is set, getLinks invokes the payment executor exactly once; on
payment success it returns the body of exactly one replayed fetch (two
links-endpoint calls in all), and on payment failure it returns the
original challenge unchanged with no further links-endpoint call. -/
theorem getLinks_x402_retry (env : Env) (url : String)
    (h : isX402 (env.linksResp 0) = true) :
    ((pay env (env.linksResp 0)).1 = true →
      getLinks env url true 0 =
        ⟨env.linksResp 1, 2, 1, (pay env (env.linksResp 0)).2⟩) ∧
    ((pay env (env.linksResp 0)).1 = false →
      getLinks env url true 0 =
        ⟨env.linksResp 0, 1, 1, (pay env (env.linksResp 0)).2⟩) := by
  constructor <;> intro hp <;>
    simp [getLinks, getLinksR, h, hp]

/-- C1 witness: on a mock serving a challenge first and a normal body
second, with payment succeeding, getLinks returns the normal body after
two fetches and one payment. -/
theorem getLinks_x402_retry_witness :
    getLinks envC1 "https://example.com" true 0 = ⟨linksOk, 2, 1, 1⟩ :=
  (getLinks_x402_retry envC1 "https://example.com" (by decide)).1 (by decide)

/-- C2: when the extraction response is not itself a challenge but its
results array holds at least one challenge item and the retry flag is set,
extractText invokes the payment executor once per challenge item --
whatever each payment outcome is -- then performs exactly one retried
extraction call and returns the retried body verbatim. -/
theorem extractText_item_challenges (env : Env) (urls : List String)
    (domain : String) (results : List Val)
    (h1 : isX402 (env.extractResp 0) = false)
    (h2 : getField (env.extractResp 0) "results" = some (.varr results))
    (h3 : (results.filter isX402).length > 0) :
    (extractText env urls domain true 0).result = env.extractResp 1 ∧
    (extractText env urls domain true 0).fetches = 2 ∧
    (extractText env urls domain true 0).payCalls =
      (results.filter isX402).length := by
  simp [extractText, extractTextR, h1, h2, h3]

/-- C2 witness: on the batch holding one text item and one challenge, with
payment succeeding, extractText makes one payment, one retried call, and
returns the retried batch. -/
theorem extractText_item_challenges_witness :
    (extractText envC2 ["a", "b"] "d" true 0).result = retriedBatch ∧
    (extractText envC2 ["a", "b"] "d" true 0).fetches = 2 ∧
    (extractText envC2 ["a", "b"] "d" true 0).payCalls = 1 :=
  extractText_item_challenges envC2 ["a", "b"] "d" [textItemA, challengeB]
    rfl rfl (by decide)

/-- C3: with the default retry flag each invocation of getLinks or
extractText hits its endpoint at most twice, and with the flag cleared
exactly once, whatever the responses are -- the payment-triggered replay
is bounded at one. -/
theorem retry_bounded (env : Env) (url : String) (urls : List String)
    (domain : String) (n : Nat) :
    (getLinks env url true n).fetches ≤ 2 ∧
    (getLinks env url false n).fetches = 1 ∧
    (extractText env urls domain true n).fetches ≤ 2 ∧
    (extractText env urls domain false n).fetches = 1 := by
  refine ⟨?_, rfl, ?_, rfl⟩
  · simp only [getLinks, cond, getLinksR]
    split
    · split <;> simp [getLinksR]
    · simp
  · simp only [extractText, cond, extractTextR]
    split
    · split <;> simp [extractTextR]
    · split
      · split <;> simp [extractTextR]
      · simp

/-- C4: pay is a total function -- no failure escapes it -- returning
false with zero network calls whenever the first accepted option carries
no truthy resource, and returning true exactly when a payment request went
out and came back with an ok status; every non-ok status and every
transport failure comes back as false. -/
theorem pay_no_throw (env : Env) (x402 : Val) :
    (truthy (resourceUrl x402) = false → pay env x402 = (false, 0)) ∧
    ((pay env x402).1 = true ↔
      ∃ u, resourceUrl x402 = some u ∧ truthy (some u) = true ∧
        env.doPayment u = some true) := by
  constructor
  · intro h
    cases hr : resourceUrl x402 with
    | none => simp [pay, hr]
    | some u => rw [hr] at h; simp [pay, hr, h]
  · cases hr : resourceUrl x402 with
    | none => simp [pay, hr]
    | some u =>
      by_cases ht : truthy (some u)
      · cases hd : env.doPayment u with
        | none => simp [pay, hr, ht, hd]
        | some ok => cases ok <;> simp [pay, hr, ht, hd]
      · simp [pay, hr, ht]

/-- C5 counterexample: the claim reads the host used in comparisons as the
hostname with a leading www. stripped and unchanged otherwise, but the
code removes the first occurrence of www. anywhere: the hostname
awww.example.com does not begin with www., yet the compared host becomes
aexample.com, and the link is excluded for domain awww although its actual
hostname contains awww and no denylisted name. -/
theorem stripWww_leading_counterexample :
    urlHostname "https://awww.example.com/x" = some "awww.example.com" ∧
    startsWithL "awww.example.com" "www." = false ∧
    stripWww "awww.example.com" = "aexample.com" ∧
    "aexample.com" ≠ "awww.example.com" ∧
    hasSub "awww.example.com" "awww" = true ∧
    (socials.any fun s => hasSub "awww.example.com" s) = false ∧
    filterUrls ["https://awww.example.com/x"] "awww" = [] := by decide

/-- C5 amended: the host value used in domain comparisons is the hostname
with the FIRST occurrence of the substring www. removed; that agrees with
stripping a leading www. whenever the hostname starts with www., agrees
with leaving the hostname unchanged whenever www. occurs nowhere in it,
and is exactly what the domain filter compares for every parsed link. -/
theorem stripWww_first_occurrence (s domain link : String) :
    (startsWithL s "www." = true → stripWww s = dropChars s 4) ∧
    (hasSub s "www." = false → stripWww s = s) ∧
    (∀ h, urlHostname link = some h →
      keepUrl domain link =
        (!(socials.any fun t => hasSub (stripWww h) t) &&
          hasSub (stripWww h) (stripWww domain))) := by
  refine ⟨?_, ?_, ?_⟩
  · intro h
    unfold stripWww dropChars
    rw [removeFirstL_at_head _ _ h]
    rfl
  · intro h
    unfold stripWww
    rw [removeFirstL_of_not_occurs _ _ h]
    rfl
  · intro h hh
    simp [keepUrl, hh]

/-- C6: filterUrls is the order-preserving stable filter of its input by
the keepUrl predicate -- its output is a sublist of the input, a link is
kept exactly when it satisfies keepUrl, a link that fails URL parsing is
always dropped -- and on the spec example it keeps exactly the two
example.com links in order. -/
theorem filterUrls_spec (links : List String) (domain : String) :
    (filterUrls links domain).Sublist links ∧
    (∀ link, link ∈ filterUrls links domain ↔
      link ∈ links ∧ keepUrl domain link = true) ∧
    (∀ link, urlHostname link = none → keepUrl domain link = false) ∧
    filterUrls ["https://github.com/x", "https://sub.example.com/a",
      "https://www.example.com/b", "not a url"] "example.com" =
    ["https://sub.example.com/a", "https://www.example.com/b"] := by
  refine ⟨List.filter_sublist _, ?_, ?_, by decide⟩
  · intro link
    exact List.mem_filter
  · intro link h
    simp [keepUrl, h]

/-- C7: isX402 is total and holds exactly of object values whose
x402Version and accepts fields are both present and truthy; in particular
it rejects the empty object, null and an object missing accepts, and
accepts a well-formed challenge. -/
theorem isX402_characterization (v : Val) :
    (isX402 v = true ↔
      (∃ fields, v = Val.vobj fields) ∧
      truthy (getField v "x402Version") = true ∧
      truthy (getField v "accepts") = true) ∧
    isX402 (Val.vobj []) = false ∧
    isX402 Val.vnull = false ∧
    isX402 (Val.vobj [("x402Version", Val.vnum 1)]) = false ∧
    isX402 (Val.vobj [("x402Version", Val.vnum 1),
      ("accepts", Val.varr [Val.vobj [("resource", Val.vstr "u")]])]) = true := by
  refine ⟨?_, by decide, by decide, by decide, by decide⟩
  cases v <;> simp [isX402, getField, truthy]

/-- C8: in scrape_website, when the link fetcher still ends in a payment
challenge the handler answers the error payload carrying that challenge
and never calls the extract endpoint, and when the filtered link list is
empty it answers the no-internal-links payload with an empty filtered
array and likewise never calls the extract endpoint. -/
theorem scrape_error_paths (env : Env) (url host : String)
    (hu : urlHostname url = some host) :
    (isX402 (getLinks env url true 0).result = true →
      scrapeWebsite env url = some
        ⟨.vobj [("error", .vstr "Payment failed for links"),
            ("x402", (getLinks env url true 0).result)],
          (getLinks env url true 0).fetches, 0,
          (getLinks env url true 0).payCalls⟩) ∧
    (isX402 (getLinks env url true 0).result = false →
      filterUrls (linksField (getLinks env url true 0).result)
          (stripWww host) = [] →
      scrapeWebsite env url = some
        ⟨mkObj [("links", getField (getLinks env url true 0).result "links"),
            ("filtered", some (.varr [])),
            ("message", some (.vstr "No internal links found"))],
          (getLinks env url true 0).fetches, 0,
          (getLinks env url true 0).payCalls⟩) := by
  constructor
  · intro h
    simp [scrapeWebsite, hu, h]
  · intro h h2
    simp [scrapeWebsite, hu, h, h2]

/-- C8 witness: with the links endpoint stuck on a challenge and payment
declined, scrape_website answers the error payload after one links fetch,
one payment attempt and no extraction call. -/
theorem scrape_error_paths_witness :
    scrapeWebsite envC8 "https://example.com/" = some
      ⟨.vobj [("error", .vstr "Payment failed for links"), ("x402", challengeB)],
        1, 0, 1⟩ :=
  (scrape_error_paths envC8 "https://example.com/" "example.com" rfl).1
    (by decide)

/-- C9: the challenge with an empty accepts array is classified as payment
required, yet pay returns false without any network call, so getLinks
returns it unchanged after a single fetch, one executor invocation and
zero payment requests. -/
theorem empty_accepts_challenge (env : Env) (url : String)
    (h : env.linksResp 0 = emptyAccepts) :
    isX402 emptyAccepts = true ∧
    pay env emptyAccepts = (false, 0) ∧
    getLinks env url true 0 = ⟨emptyAccepts, 1, 1, 0⟩ := by
  refine ⟨rfl, rfl, ?_⟩
  simp [getLinks, getLinksR, h]
  rfl

/-- C9 witness: the empty-accepts behavior on a concrete environment whose
links endpoint serves that challenge. -/
theorem empty_accepts_challenge_witness :
    pay envC9 emptyAccepts = (false, 0) ∧
    getLinks envC9 "https://example.com" true 0 = ⟨emptyAccepts, 1, 1, 0⟩ :=
  (empty_accepts_challenge envC9 "https://example.com" rfl).2

/-- C10: the extract_text handler filters its urls argument before any
extraction; when the filter is empty it answers the literal message text
-- not a JSON payload -- with zero extraction calls, and only otherwise
does it call the text extractor, on the filtered list. -/
theorem extract_text_filters_first (env : Env) (urls : List String)
    (domain : String) :
    (filterUrls urls domain = [] →
      extractTextTool env urls domain =
        ⟨.plain "No URLs matched domain filter", 0, 0⟩) ∧
    (filterUrls urls domain ≠ [] →
      extractTextTool env urls domain =
        ⟨.jsonOf
            (extractText env (filterUrls urls domain) domain true 0).result,
          (extractText env (filterUrls urls domain) domain true 0).fetches,
          (extractText env (filterUrls urls domain) domain true 0).payCalls⟩) := by
  constructor
  · intro h
    simp [extractTextTool, h]
  · intro h
    simp [extractTextTool, h]

end Scraper
